import Mathlib

/-!
Verification of the HICP spreadsheet preprocessing pipeline
(`Preprocessing.py`): the sheet cleaner `cleaning_dataframe`, the summary
loader `load_summary`, and the category classifier `map_sheet_to_category`.

Cells of a sheet are modelled by `Cell` (a string, a numeric value, or a
missing marker `na`, written NaN in the source).  Numeric values are
modelled by `Rat`; the floating-point specials (inf, nan produced by
overflow) play no role in the pipeline and are outside the model.
A raw worksheet is a header row plus data rows (`RawSheet`).

String-processing helpers of the Python runtime (str.split, int(...),
float(...), pandas.to_datetime, pandas.to_numeric) are modelled by
structural recursion over character lists so that every definition
evaluates inside the kernel.
-/

namespace Hicp

/-- Value of a decimal digit character. -/
def digitVal (c : Char) : Nat := c.toNat - 48

/-- Accumulating decimal-digit reader: consumes the rest of the characters,
failing on the first non-digit. -/
def digitsAux (acc : Nat) : List Char → Option Nat
  | [] => some acc
  | c :: cs => if c.isDigit then digitsAux (acc * 10 + digitVal c) cs else none

/-- Reads a nonempty all-digit character list as a natural number;
`none` if the list is empty or contains a non-digit. -/
def decDigits : List Char → Option Nat
  | [] => none
  | c :: cs => if c.isDigit then digitsAux (digitVal c) cs else none

/-- Digit reader for Python `int(...)`: like `decDigits` but also accepting a
single underscore between two digits, as Python integer literals do. -/
def pyIntAux (acc : Nat) : List Char → Option Nat
  | [] => some acc
  | c :: cs =>
    if c.isDigit then pyIntAux (acc * 10 + digitVal c) cs
    else if c = '_' then
      match cs with
      | c2 :: cs2 => if c2.isDigit then pyIntAux (acc * 10 + digitVal c2) cs2 else none
      | [] => none
    else none

/-- Unsigned part of Python `int(...)`: a nonempty digit sequence with
optional single underscores between digits. -/
def pyIntDigits : List Char → Option Nat
  | [] => none
  | c :: cs => if c.isDigit then pyIntAux (digitVal c) cs else none

/-- Drops leading whitespace characters. -/
def dropWs : List Char → List Char
  | [] => []
  | c :: cs => if c.isWhitespace then dropWs cs else c :: cs

/-- Strips whitespace from both ends, as Python `str.strip` /
`int(...)` argument normalization does. -/
def trimWs (cs : List Char) : List Char := (dropWs (dropWs cs).reverse).reverse

/-- Model of Python `int(token)`: optional surrounding whitespace, optional
sign, then decimal digits (underscores allowed between digits); `none`
models the `ValueError` raised on any other input. -/
def pyInt (s : String) : Option Int :=
  match trimWs s.data with
  | '+' :: rest => (pyIntDigits rest).map (fun n => (n : Int))
  | '-' :: rest => (pyIntDigits rest).map (fun n => -(n : Int))
  | cs => (pyIntDigits cs).map (fun n => (n : Int))

/-- Splitter for Python `str.split()` with no argument: splits on runs of
whitespace and never yields empty tokens. -/
def splitWsAux (cur : List Char) : List Char → List String
  | [] => if cur.isEmpty then [] else [String.mk cur.reverse]
  | c :: cs =>
    if c.isWhitespace then
      if cur.isEmpty then splitWsAux [] cs
      else String.mk cur.reverse :: splitWsAux [] cs
    else splitWsAux (c :: cur) cs

/-- Model of Python `s.split()` (split on whitespace, discarding empties). -/
def pySplit (s : String) : List String := splitWsAux [] s.data

/-- The trailing whitespace-delimited token of a string, `none` when the
string holds no token (Python `s.split()[-1]` raising `IndexError`). -/
def trailingToken (s : String) : Option String := (pySplit s).getLast?

/-- Membership test of the source constant `SHEETS_INDEX_FOOD = range(1, 76)`. -/
def SHEETS_INDEX_FOOD (idx : Int) : Bool := 1 ≤ idx && idx < 76

/-- Membership test of the source constant
`SHEETS_INDEX_HOUSING_ENERGY = range(76, 109)`. -/
def SHEETS_INDEX_HOUSING_ENERGY (idx : Int) : Bool := 76 ≤ idx && idx < 109

/-- Membership test of the source constant
`SHEETS_INDEX_TRANSPORT = range(109, 151)`. -/
def SHEETS_INDEX_TRANSPORT (idx : Int) : Bool := 109 ≤ idx && idx < 151

/-- Function `map_sheet_to_category` of `Preprocessing.py`: parses the trailing token
of the sheet name with `int(...)` (any failure yields "Other") and
classifies the resulting index by the three range constants. -/
def map_sheet_to_category (sheet_name : String) : String :=
  match (trailingToken sheet_name).bind pyInt with
  | none => "Other"
  | some idx =>
    if SHEETS_INDEX_FOOD idx then "Food"
    else if SHEETS_INDEX_HOUSING_ENERGY idx then "Housing & Energy"
    else if SHEETS_INDEX_TRANSPORT idx then "Transport"
    else "Other"

/-- One cell of a spreadsheet: a string, a numeric value, or the missing
marker (NaN in the source). -/
inductive Cell where
  | str (s : String)
  | num (q : Rat)
  | na
deriving DecidableEq, Repr

/-- A raw worksheet: a list of column headers and the data rows beneath
them (row-major, as read from the sheet). -/
structure RawSheet where
  headers : List String
  rows : List (List Cell)
deriving DecidableEq, Repr

/-- A calendar date, as produced by `pandas.to_datetime`. -/
structure Date where
  year : Nat
  month : Nat
  day : Nat
deriving DecidableEq, Repr

/-- One row of the cleaned long-format table.  `hicp` is an `Option` so
that the dropna step of the cleaner is visible as a filter on it. -/
structure Obs where
  country : String
  date : Date
  hicp : Option Rat
deriving DecidableEq, Repr

/-- The errors `cleaning_dataframe` can raise: `iloc` on a sheet without
columns, `melt` not finding its `Country` id column (a `KeyError`), and
`to_datetime` failing to parse a period label. -/
inductive CleanErr where
  | noColumns
  | noCountryColumn
  | dateParse (s : String)
deriving DecidableEq, Repr

/-- Splits a character list on a separator character, keeping empty pieces
(Python `str.split(sep)` semantics). -/
def splitCharAux (sep : Char) (cur : List Char) : List Char → List (List Char)
  | [] => [cur.reverse]
  | c :: cs =>
    if c = sep then cur.reverse :: splitCharAux sep [] cs
    else splitCharAux sep (c :: cur) cs

/-- Splits a character list on a separator character. -/
def splitChar (sep : Char) (cs : List Char) : List (List Char) :=
  splitCharAux sep [] cs

/-- Model of `pandas.to_datetime` on the period-label strings this dataset
carries: a four-digit year `YYYY`, a month `YYYY-MM`, or a full date
`YYYY-MM-DD`; every other string fails to parse (the source lets
`to_datetime` raise there).  Day validity is approximated by `1..31`. -/
def parseDate (s : String) : Option Date :=
  match splitChar '-' s.data with
  | [y] =>
    if y.length = 4 then (decDigits y).map (fun yn => { year := yn, month := 1, day := 1 })
    else none
  | [y, m] =>
    match decDigits y, decDigits m with
    | some yn, some mn =>
      if y.length = 4 ∧ 1 ≤ mn ∧ mn ≤ 12 then some { year := yn, month := mn, day := 1 }
      else none
    | _, _ => none
  | [y, m, d] =>
    match decDigits y, decDigits m, decDigits d with
    | some yn, some mn, some dn =>
      if y.length = 4 ∧ 1 ≤ mn ∧ mn ≤ 12 ∧ 1 ≤ dn ∧ dn ≤ 31 then
        some { year := yn, month := mn, day := dn }
      else none
    | _, _, _ => none
  | _ => none

/-- Value of a fractional digit block of length `len`. -/
def fracVal (f : Nat) (len : Nat) : Rat := (f : Rat) / ((10 : Rat) ^ len)

/-- Unsigned decimal numeral: digits with an optional fractional part
(`"100"`, `"99.5"`, `"1."`, `".5"`). -/
def parseUnsigned (cs : List Char) : Option Rat :=
  match splitChar '.' cs with
  | [ip] => (decDigits ip).map (fun n => (n : Rat))
  | [ip, fp] =>
    if ip.isEmpty && fp.isEmpty then none
    else
      match (if ip.isEmpty then some 0 else decDigits ip),
            (if fp.isEmpty then some 0 else decDigits fp) with
      | some i, some f => some ((i : Rat) + fracVal f fp.length)
      | _, _ => none
  | _ => none

/-- Model of `pandas.to_numeric(..., errors="coerce")` on strings: plain
decimal notation with optional sign and surrounding whitespace; any other
string coerces to missing.  Scientific notation and the float specials
are outside the model (the dataset never carries them). -/
def parseDecimal (s : String) : Option Rat :=
  match trimWs s.data with
  | '+' :: rest => parseUnsigned rest
  | '-' :: rest => (parseUnsigned rest).map (fun q => -q)
  | cs => parseUnsigned cs

/-- Numeric coercion of one cell, as `pandas.to_numeric(..., "coerce")`
acts element-wise: numbers pass through, missing stays missing, strings
are parsed or coerced to missing. -/
def cellToNum : Cell → Option Rat
  | Cell.num q => some q
  | Cell.na => none
  | Cell.str s => parseDecimal s

/-- String coercion of one cell, as `.astype(str)` acts element-wise; the
missing marker becomes the literal string "nan", exactly as NumPy prints
it. -/
def cellStr : Cell → String
  | Cell.str s => s
  | Cell.num q => toString q
  | Cell.na => "nan"

/-- The placeholder normalization of the cleaner:
`.replace(":", nan).replace("d", nan)` on a single cell. -/
def replaceSentinel (c : Cell) : Cell :=
  if c = Cell.str ":" ∨ c = Cell.str "d" then Cell.na else c

/-- The header rename of the cleaner:
the rename of the column labelled TIME to Country, on a single header. -/
def renameTime (h : String) : String :=
  if h = "TIME" then "Country" else h

/-- The odd 0-based column indices of a sheet with `n` columns:
`[i for i in range(n) if i % 2 != 0]` in the source. -/
def oddIndices (n : Nat) : List Nat := (List.range n).filter (fun i => i % 2 != 0)

/-- The columns kept by `df.iloc[:, [0] + [i ... if i % 2 != 0]]`. -/
def keepIndices (n : Nat) : List Nat := 0 :: oddIndices n

/-- A column-labelled table: the logical view of a pandas DataFrame as a
list of (header, column values). -/
abbrev Frame := List (String × List Cell)

/-- The column selection `df.iloc[:, [0] + odd indices]`, read as the list
of retained columns. -/
def selectCols (df : RawSheet) : Frame :=
  (keepIndices df.headers.length).map (fun i =>
    (df.headers.getD i "", df.rows.map (fun r => r.getD i Cell.na)))

/-- The placeholder replacement over a whole frame. -/
def replaceFrame (fr : Frame) : Frame :=
  fr.map (fun col => (col.1, col.2.map replaceSentinel))

/-- The TIME-to-Country header rename over a whole frame. -/
def renameFrame (fr : Frame) : Frame :=
  fr.map (fun col => (renameTime col.1, col.2))

/-- The reshape `.melt(id_vars="Country", var_name="Date", value_name="HICP")`: the id
column is the column named `Country` (a missing id column is the
`KeyError` pandas raises); each remaining column is unpivoted in
left-to-right column order, its values paired row by row with the id
column's values.  The resulting triples are (Country cell, period label,
value cell). -/
def meltFrame (fr : Frame) : Except CleanErr (List (Cell × String × Cell)) :=
  match fr.find? (fun col => col.1 == "Country") with
  | none => Except.error CleanErr.noCountryColumn
  | some idCol =>
    Except.ok ((fr.filter (fun col => col.1 != "Country")).flatMap
      (fun col => (idCol.2.zip col.2).map (fun q => (q.1, col.1, q.2))))

/-- The type-enforcement block of the cleaner, one melted row at a time:
`Country` through `.astype(str)`, `Date` through `to_datetime` (whose
parse failure raises, aborting the whole sheet), `HICP` through
`to_numeric(errors="coerce")` (which never raises). -/
def enforceTypes : List (Cell × String × Cell) → Except CleanErr (List Obs)
  | [] => Except.ok []
  | t :: ts =>
    match parseDate t.2.1 with
    | none => Except.error (CleanErr.dateParse t.2.1)
    | some d =>
      match enforceTypes ts with
      | Except.error e => Except.error e
      | Except.ok rest =>
        Except.ok ({ country := cellStr t.1, date := d, hicp := cellToNum t.2.2 } :: rest)

/-- The drop `df.dropna(inplace=True)`: after type enforcement only the `HICP`
field can be missing, so the drop is a filter on it. -/
def dropna (l : List Obs) : List Obs := l.filter (fun o => o.hicp.isSome)

/-- Function `cleaning_dataframe` of `Preprocessing.py`: column selection,
placeholder normalization, rename, wide-to-long melt, type enforcement,
and the final dropna, with the error cases the source can raise. -/
def cleaning_dataframe (df : RawSheet) : Except CleanErr (List Obs) :=
  if df.headers.length = 0 then Except.error CleanErr.noColumns
  else
    match meltFrame (renameFrame (replaceFrame (selectCols df))) with
    | Except.error e => Except.error e
    | Except.ok melted =>
      match enforceTypes melted with
      | Except.error e => Except.error e
      | Except.ok typed => Except.ok (dropna typed)

/-- Specification-side description of the melted triples: one triple per
(period column, input row) pair, period columns in left-to-right order,
rows in top-to-bottom order. -/
def meltedSpec (df : RawSheet) : List (Cell × String × Cell) :=
  (oddIndices df.headers.length).flatMap (fun j =>
    df.rows.map (fun r =>
      (replaceSentinel (r.getD 0 Cell.na), df.headers.getD j "",
       replaceSentinel (r.getD j Cell.na))))

/-- Specification-side description of the typed table before the dropna
step: the melted triples with types enforced, still one row per
(period column, input row) pair in column-major order. -/
def preDropSpec (df : RawSheet) : List Obs :=
  (oddIndices df.headers.length).flatMap (fun j =>
    df.rows.map (fun r =>
      { country := cellStr (replaceSentinel (r.getD 0 Cell.na)),
        date := (parseDate (df.headers.getD j "")).getD { year := 0, month := 0, day := 0 },
        hicp := cellToNum (replaceSentinel (r.getD j Cell.na)) }))

/-- Specification-side description of the cleaned output: for each period
column and each input row, the row survives exactly when its value cell
coerces to a number after placeholder normalization. -/
def cleanSpec (df : RawSheet) : List Obs :=
  (oddIndices df.headers.length).flatMap (fun j =>
    df.rows.filterMap (fun r =>
      match cellToNum (replaceSentinel (r.getD j Cell.na)) with
      | some q =>
        some { country := cellStr (replaceSentinel (r.getD 0 Cell.na)),
               date := (parseDate (df.headers.getD j "")).getD { year := 0, month := 0, day := 0 },
               hicp := some q }
      | none => none))

/-- Column-index lookup for the keys of the summary `columns_map`, in key
order; `none` models the `KeyError` pandas raises for an absent column. -/
def findCols (headers : List String) : List String → Option (List Nat)
  | [] => some []
  | k :: ks =>
    match headers.findIdx? (fun h => h == k), findCols headers ks with
    | some i, some is => some (i :: is)
    | _, _ => none

/-- The in-memory transformation of `load_summary` (the Excel read that
produces `headers`/`rows` is the excluded external reader): select the
columns named by the keys of `columns_map`, drop rows whose value in the
first selected column is the literal "Contents", drop rows with a missing
value in any selected column, and rename the kept columns per the map.
`none` models the exceptions of the source (absent column key, or an
empty `columns_map` making `cols_to_keep[0]` raise). -/
def load_summary_core (headers : List String) (rows : List (List Cell))
    (columns_map : List (String × String)) : Option (List String × List (List Cell)) :=
  match findCols headers (columns_map.map Prod.fst) with
  | none => none
  | some [] => none
  | some (i0 :: idxs) =>
    let filtered := rows.filter (fun r => r.getD i0 Cell.na != Cell.str "Contents")
    let selected := filtered.map (fun r => (i0 :: idxs).map (fun i => r.getD i Cell.na))
    let complete := selected.filter (fun r => !(r.any (fun c => c == Cell.na)))
    some (columns_map.map Prod.snd, complete)

/-! ### Concrete fixtures -/

/-- The raw sheet of the worked scenario of the spec: columns
`[TIME, 2020-01, mergeArtifact, 2020-02, mergeArtifact]`, rows
`[("FR", 100.0, "x", ":", "y"), ("DE", "d", "x", 99.5, "y")]`. -/
def scenarioSheet : RawSheet :=
  { headers := ["TIME", "2020-01", "mergeArtifact", "2020-02", "mergeArtifact"],
    rows := [[Cell.str "FR", Cell.num 100, Cell.str "x", Cell.str ":", Cell.str "y"],
             [Cell.str "DE", Cell.str "d", Cell.str "x", Cell.num 99.5, Cell.str "y"]] }

/-- An input shaped exactly like the cleaner's own output: long format,
columns `Country`, `Date`, `HICP`, one typed observation row. -/
def longShapedSheet : RawSheet :=
  { headers := ["Country", "Date", "HICP"],
    rows := [[Cell.str "FR", Cell.str "2020-01-01", Cell.num 100]] }

/-- A raw sheet whose first column carries the label "GEO" instead of
"TIME". -/
def geoSheet : RawSheet :=
  { headers := ["GEO", "2020-01"],
    rows := [[Cell.str "FR", Cell.num 100]] }

/-- A second sheet without a "TIME" or "Country" header. -/
def geoSheet2 : RawSheet :=
  { headers := ["GEO", "X"],
    rows := [[Cell.na, Cell.na]] }

/-- A minimal well-formed sheet. -/
def tinySheet : RawSheet :=
  { headers := ["TIME", "2020-01"],
    rows := [[Cell.str "FR", Cell.num 100]] }

/-- A well-formed sheet whose period label "BAD" fails date parsing. -/
def badDateSheet : RawSheet :=
  { headers := ["TIME", "BAD"],
    rows := [[Cell.str "FR", Cell.num 100]] }

/-- A two-period sheet mixing both sentinels and a non-numeric value. -/
def mixedSheet : RawSheet :=
  { headers := ["TIME", "2021-03", "m", "2021-04", "m"],
    rows := [[Cell.str "IT", Cell.str ":", Cell.str "x", Cell.num 50, Cell.str "x"],
             [Cell.str "ES", Cell.str "abc", Cell.str "x", Cell.str "d", Cell.str "x"]] }

/-- A second output-shaped input with different content. -/
def longShapedSheet2 : RawSheet :=
  { headers := ["Country", "Date", "HICP"],
    rows := [[Cell.str "DE", Cell.str "2021-05-01", Cell.num 50]] }

/-- Header row of the summary fixture. -/
def summaryHeaders : List String := ["A", "B", "C"]

/-- Rows of the summary fixture: a "Contents" header row, a valid row, and
a row with a missing value in a selected column. -/
def summaryRows : List (List Cell) :=
  [[Cell.na, Cell.str "Contents", Cell.na],
   [Cell.str "q", Cell.str "Sheet 1", Cell.str "Bread"],
   [Cell.na, Cell.str "Sheet 2", Cell.na]]

/-- The columns map of the summary fixture. -/
def summaryMap : List (String × String) := [("B", "sheet_name"), ("C", "description")]

/-! ### General list helpers -/

theorem filter_flatMap_comm {α β : Type} (l : List α) (f : α → List β) (p : β → Bool) :
    (l.flatMap f).filter p = l.flatMap (fun a => (f a).filter p) := by
  induction l with
  | nil => rfl
  | cons a l ih => simp [List.flatMap_cons, List.filter_append, ih]

theorem filter_of_map {α β : Type} (l : List α) (g : α → β) (p : β → Bool) :
    (l.map g).filter p = l.filterMap (fun a => if p (g a) then some (g a) else none) := by
  induction l with
  | nil => rfl
  | cons a l ih =>
    by_cases h : p (g a) = true
    · simp [List.filter_cons, List.filterMap_cons, h, ih]
    · simp [List.filter_cons, List.filterMap_cons, h, ih]

/-! ### Membership in the odd-index list -/

theorem mem_oddIndices {n j : Nat} : j ∈ oddIndices n ↔ j < n ∧ j % 2 ≠ 0 := by
  unfold oddIndices
  simp [List.mem_filter]

/-- The headers the spec calls period labels never parse as dates when they
are one of the two special column names. -/
theorem parseDate_TIME : parseDate "TIME" = none := rfl

theorem parseDate_Country : parseDate "Country" = none := rfl

/-! ### Stage lemmas for the cleaner -/

/-- The frame reaching `melt`, under the well-formedness hypotheses: the
first column is renamed to `Country`, the odd-indexed columns keep their
period labels. -/
theorem frame_eq (df : RawSheet)
    (h1 : df.headers.getD 0 "" = "TIME")
    (hp : ∀ j ∈ oddIndices df.headers.length,
      df.headers.getD j "" ≠ "TIME" ∧ df.headers.getD j "" ≠ "Country") :
    renameFrame (replaceFrame (selectCols df)) =
      ("Country", df.rows.map (fun r => replaceSentinel (r.getD 0 Cell.na))) ::
      (oddIndices df.headers.length).map (fun j =>
        (df.headers.getD j "", df.rows.map (fun r => replaceSentinel (r.getD j Cell.na)))) := by
  unfold renameFrame replaceFrame selectCols keepIndices
  rw [List.map_map, List.map_map, List.map_cons]
  refine congrArg₂ List.cons ?_ ?_
  · show (renameTime (df.headers.getD 0 ""),
      (df.rows.map (fun r => r.getD 0 Cell.na)).map replaceSentinel) = _
    rw [h1, List.map_map]
    rfl
  · refine List.map_congr_left ?_
    intro j hj
    show (renameTime (df.headers.getD j ""),
      (df.rows.map (fun r => r.getD j Cell.na)).map replaceSentinel) = _
    rw [List.map_map]
    unfold renameTime
    rw [if_neg (hp j hj).1]
    rfl

/-- Whatever the headers are, the frame reaching `melt` starts with the
renamed first column. -/
theorem frame_head (df : RawSheet) :
    ∃ rest, renameFrame (replaceFrame (selectCols df)) =
      (renameTime (df.headers.getD 0 ""),
        df.rows.map (fun r => replaceSentinel (r.getD 0 Cell.na))) :: rest := by
  refine ⟨(oddIndices df.headers.length).map (fun i =>
    (renameTime (df.headers.getD i ""),
      (df.rows.map (fun r => r.getD i Cell.na)).map replaceSentinel)), ?_⟩
  unfold renameFrame replaceFrame selectCols keepIndices
  rw [List.map_map, List.map_map, List.map_cons]
  refine congrArg₂ List.cons ?_ rfl
  show (renameTime (df.headers.getD 0 ""),
    (df.rows.map (fun r => r.getD 0 Cell.na)).map replaceSentinel) = _
  rw [List.map_map]
  rfl

/-- Applied to a frame whose head column is the (only) `Country` column,
`melt` keeps the remaining columns in order and zips each against the id
column. -/
theorem meltFrame_cons (v : List Cell) (rest : Frame)
    (h : ∀ col ∈ rest, col.1 ≠ "Country") :
    meltFrame (("Country", v) :: rest) =
      Except.ok (rest.flatMap (fun col =>
        (v.zip col.2).map (fun q => (q.1, col.1, q.2)))) := by
  show Except.ok (((("Country", v) :: rest).filter (fun col => col.1 != "Country")).flatMap
    (fun col => (v.zip col.2).map (fun q => (q.1, col.1, q.2)))) = _
  rw [List.filter_cons]
  simp only [bne_self_eq_false, Bool.false_eq_true, if_false]
  rw [List.filter_eq_self.mpr (fun col hcol => by simpa using h col hcol)]

/-- Under the well-formedness hypotheses `melt` succeeds and yields one
triple per (period column, input row) pair, column-major. -/
theorem melt_eq (df : RawSheet)
    (h1 : df.headers.getD 0 "" = "TIME")
    (hp : ∀ j ∈ oddIndices df.headers.length,
      df.headers.getD j "" ≠ "TIME" ∧ df.headers.getD j "" ≠ "Country") :
    meltFrame (renameFrame (replaceFrame (selectCols df))) = Except.ok (meltedSpec df) := by
  rw [frame_eq df h1 hp]
  rw [meltFrame_cons _ _ (by
    intro col hcol
    obtain ⟨j, hj, rfl⟩ := List.mem_map.mp hcol
    exact (hp j hj).2)]
  rw [List.flatMap_map]
  unfold meltedSpec
  refine congrArg Except.ok (congrArg _ (funext fun j => ?_))
  rw [List.zip_map', List.map_map]
  rfl

/-- Type enforcement succeeds when every melted date string parses, and
maps each triple to its typed observation. -/
theorem enforceTypes_ok (l : List (Cell × String × Cell))
    (h : ∀ t ∈ l, (parseDate t.2.1).isSome) :
    enforceTypes l = Except.ok (l.map (fun t =>
      { country := cellStr t.1,
        date := (parseDate t.2.1).getD { year := 0, month := 0, day := 0 },
        hicp := cellToNum t.2.2 })) := by
  induction l with
  | nil => rfl
  | cons t ts ih =>
    obtain ⟨d, hd⟩ := Option.isSome_iff_exists.mp (h t (List.mem_cons_self t ts))
    rw [enforceTypes, hd, ih (fun u hu => h u (List.mem_cons_of_mem t hu))]
    simp [hd]

/-- Type enforcement fails with a date-parse error as soon as some melted
date string fails to parse. -/
theorem enforceTypes_err (l : List (Cell × String × Cell))
    (h : ∃ t ∈ l, parseDate t.2.1 = none) :
    ∃ s, parseDate s = none ∧ enforceTypes l = Except.error (CleanErr.dateParse s) := by
  induction l with
  | nil => simp at h
  | cons t ts ih =>
    by_cases ht : parseDate t.2.1 = none
    · exact ⟨t.2.1, ht, by rw [enforceTypes, ht]⟩
    · obtain ⟨d, hd⟩ := Option.ne_none_iff_exists'.mp ht
      have h' : ∃ u ∈ ts, parseDate u.2.1 = none := by
        obtain ⟨u, hu, hun⟩ := h
        rcases List.mem_cons.mp hu with rfl | hu'
        · exact absurd hun ht
        · exact ⟨u, hu', hun⟩
      obtain ⟨s, hs, he⟩ := ih h'
      exact ⟨s, hs, by rw [enforceTypes, hd, he]⟩

/-- Type enforcement never produces the missing-id-column error. -/
theorem enforceTypes_ne_ncc (l : List (Cell × String × Cell)) :
    enforceTypes l ≠ Except.error CleanErr.noCountryColumn := by
  induction l with
  | nil => intro h; injection h
  | cons t ts ih =>
    rw [enforceTypes]
    cases hp : parseDate t.2.1 with
    | none => intro h; injection h with h'; injection h'
    | some d =>
      cases he : enforceTypes ts with
      | error e => rw [he] at ih; intro h; injection h with h'; exact ih (by rw [h'])
      | ok rest => intro h; injection h

/-- On the melted triples of a well-formed sheet, type enforcement
produces exactly the pre-drop column-major table. -/
theorem enforce_meltedSpec (df : RawSheet)
    (hparse : ∀ j ∈ oddIndices df.headers.length,
      (parseDate (df.headers.getD j "")).isSome) :
    enforceTypes (meltedSpec df) = Except.ok (preDropSpec df) := by
  have hmem : ∀ t ∈ meltedSpec df, (parseDate t.2.1).isSome := by
    intro t ht
    unfold meltedSpec at ht
    obtain ⟨j, hj, hm⟩ := List.mem_flatMap.mp ht
    obtain ⟨r, _, rfl⟩ := List.mem_map.mp hm
    exact hparse j hj
  rw [enforceTypes_ok _ hmem]
  unfold meltedSpec preDropSpec
  rw [List.map_flatMap]
  refine congrArg Except.ok (congrArg _ (funext fun j => ?_))
  rw [List.map_map]
  rfl

/-- Master lemma: on a well-formed sheet the cleaner succeeds and returns
the dropna filter of the column-major pre-drop table. -/
theorem cleaning_ok (df : RawSheet)
    (h1 : df.headers.getD 0 "" = "TIME")
    (hparse : ∀ j ∈ oddIndices df.headers.length,
      (parseDate (df.headers.getD j "")).isSome) :
    cleaning_dataframe df = Except.ok (dropna (preDropSpec df)) := by
  have hp : ∀ j ∈ oddIndices df.headers.length,
      df.headers.getD j "" ≠ "TIME" ∧ df.headers.getD j "" ≠ "Country" := by
    intro j hj
    have hs := hparse j hj
    constructor
    · intro h; rw [h, parseDate_TIME] at hs; exact absurd hs (by decide)
    · intro h; rw [h, parseDate_Country] at hs; exact absurd hs (by decide)
  have hn : ¬ df.headers.length = 0 := by
    intro h0
    rw [List.length_eq_zero.mp h0] at h1
    exact absurd h1 (by decide)
  unfold cleaning_dataframe
  rw [if_neg hn, melt_eq df h1 hp]
  show (match enforceTypes (meltedSpec df) with
    | Except.error e => Except.error e
    | Except.ok typed => Except.ok (dropna typed)) = _
  rw [enforce_meltedSpec df hparse]

/-- The dropna filter of the pre-drop table is exactly the filterMap
description that keeps the numerically coercible cells. -/
theorem dropna_preDrop (df : RawSheet) : dropna (preDropSpec df) = cleanSpec df := by
  unfold dropna preDropSpec cleanSpec
  rw [filter_flatMap_comm]
  refine congrArg _ (funext fun j => ?_)
  rw [filter_of_map]
  refine List.filterMap_congr ?_
  intro r _
  cases h : cellToNum (replaceSentinel (r.getD j Cell.na)) with
  | none => simp [h]
  | some q => simp [h]

/-! ### Claim theorems -/

/-- C1: For every raw wide-format sheet with well-formed headers (first
header literally "TIME", and every odd-indexed period label parseable as
a date, under which the date-parse drop reason of the claim is vacuous:
an unparseable label raises instead), `cleaning_dataframe` keeps, for
each period column and input row in order, exactly the rows whose value
cell still coerces to a number after placeholder normalization, and
drops no others; the second conjunct spells the drop condition out as:
the original cell was the sentinel ":" or "d", or its value fails
numeric coercion. -/
theorem c1_clean_drops_exactly :
    ∀ df : RawSheet,
      df.headers.getD 0 "" = "TIME" →
      (∀ j ∈ oddIndices df.headers.length, (parseDate (df.headers.getD j "")).isSome) →
      cleaning_dataframe df = Except.ok (cleanSpec df) ∧
      (∀ c : Cell, cellToNum (replaceSentinel c) = none ↔
        c = Cell.str ":" ∨ c = Cell.str "d" ∨ cellToNum c = none) := by
  intro df h1 hparse
  refine ⟨(cleaning_ok df h1 hparse).trans (congrArg Except.ok (dropna_preDrop df)), ?_⟩
  intro c
  constructor
  · intro h
    by_cases hc1 : c = Cell.str ":"
    · exact Or.inl hc1
    by_cases hc2 : c = Cell.str "d"
    · exact Or.inr (Or.inl hc2)
    refine Or.inr (Or.inr ?_)
    unfold replaceSentinel at h
    rwa [if_neg (by tauto)] at h
  · intro h
    rcases h with rfl | rfl | h
    · rfl
    · rfl
    · unfold replaceSentinel
      split
      · rfl
      · exact h

/-- Witness for C1 at the `mixedSheet` fixture. -/
theorem c1_witness :
    cleaning_dataframe mixedSheet = Except.ok (cleanSpec mixedSheet) ∧
    (cellToNum (replaceSentinel (Cell.str ":")) = none ↔
      Cell.str ":" = Cell.str ":" ∨ Cell.str ":" = Cell.str "d" ∨
        cellToNum (Cell.str ":") = none) :=
  ⟨(c1_clean_drops_exactly mixedSheet (by decide) (by decide)).1,
   (c1_clean_drops_exactly mixedSheet (by decide) (by decide)).2 (Cell.str ":")⟩

/-- C2: every row of a successful cleaning output has its HICP field
populated with a numeric value — the dropna step lets no missing marker
survive (the Country and Date fields are total by construction of the
typed row: `astype(str)` always yields a string and a date that failed
to parse would have aborted the sheet). -/
theorem c2_no_missing_survives :
    ∀ (df : RawSheet) (out : List Obs),
      cleaning_dataframe df = Except.ok out →
      ∀ o ∈ out, ∃ q : Rat, o.hicp = some q := by
  intro df out h o ho
  unfold cleaning_dataframe at h
  split at h
  · exact Except.noConfusion h
  · split at h
    · exact Except.noConfusion h
    · split at h
      · exact Except.noConfusion h
      · injection h with h'
        subst h'
        exact Option.isSome_iff_exists.mp (List.mem_filter.mp ho).2

/-- Witness for C2 at the `tinySheet` fixture. -/
theorem c2_witness :
    ∃ q : Rat, (Obs.mk "FR" (Date.mk 2020 1 1) (some 100)).hicp = some q :=
  c2_no_missing_survives tinySheet [Obs.mk "FR" (Date.mk 2020 1 1) (some 100)] rfl
    _ (List.mem_cons_self _ _)

/-- C4: on the worked scenario sheet the cleaner returns exactly the two
rows (FR, 2020-01-01, 100.0) and (DE, 2020-02-01, 99.5), in that
order. -/
theorem c4_scenario :
    cleaning_dataframe scenarioSheet =
      Except.ok
        [Obs.mk "FR" (Date.mk 2020 1 1) (some 100),
         Obs.mk "DE" (Date.mk 2020 2 1) (some 99.5)] := rfl

/-- C5 counterexample: applying the cleaner to a sheet shaped exactly like
its own output does not pass it through unchanged — it raises the date
parse error on the literal header label "Date" (the cleaner first drops
the `HICP` column as an even-indexed merge artifact, then melts the
`Date` column so its header name lands in the date field). -/
theorem c5_counterexample :
    cleaning_dataframe longShapedSheet = Except.error (CleanErr.dateParse "Date") ∧
    cleaning_dataframe longShapedSheet ≠
      Except.ok [Obs.mk "FR" (Date.mk 2020 1 1) (some 100)] :=
  ⟨rfl, fun h => Except.noConfusion h⟩

/-- C5 (amended): the cleaner is not idempotent; on every nonempty input
shaped like its own output (columns `Country`, `Date`, `HICP`) it fails
with the date-parse error on the header label "Date" instead of passing
the data through. -/
theorem c5_not_idempotent :
    ∀ (r : List Cell) (rs : List (List Cell)),
      cleaning_dataframe { headers := ["Country", "Date", "HICP"], rows := r :: rs } =
        Except.error (CleanErr.dateParse "Date") :=
  fun _ _ => rfl

/-- Witness for the amended C5 at a concrete output-shaped input. -/
theorem c5_witness :
    cleaning_dataframe longShapedSheet2 = Except.error (CleanErr.dateParse "Date") :=
  c5_not_idempotent [Cell.str "DE", Cell.str "2021-05-01", Cell.num 50] []

/-- C3 counterexample: a sheet whose first column is labelled "GEO" is not
renamed to `Country`; the cleaner fails with the missing-id-column error
(`melt`'s KeyError) instead of succeeding with a renamed column. -/
theorem c3_counterexample :
    cleaning_dataframe geoSheet = Except.error CleanErr.noCountryColumn := rfl

/-- C3 (amended): the cleaner renames only a column labelled literally
"TIME" to `Country`.  When the first header is "TIME" the reshape always
finds its id column (the missing-id-column error cannot occur); when no
header at all is "TIME" or "Country", cleaning fails with the
missing-id-column error rather than succeeding. -/
theorem c3_rename_only_TIME :
    ∀ df : RawSheet,
      (df.headers.getD 0 "" = "TIME" →
        cleaning_dataframe df ≠ Except.error CleanErr.noCountryColumn) ∧
      (0 < df.headers.length →
        (∀ j, j < df.headers.length →
          df.headers.getD j "" ≠ "TIME" ∧ df.headers.getD j "" ≠ "Country") →
        cleaning_dataframe df = Except.error CleanErr.noCountryColumn) := by
  intro df
  constructor
  · intro h1 hcontra
    have hn : ¬ df.headers.length = 0 := fun h0 => by
      rw [List.length_eq_zero.mp h0] at h1
      exact absurd h1 (by decide)
    have hmelt : ∃ m, meltFrame (renameFrame (replaceFrame (selectCols df))) =
        Except.ok m := by
      obtain ⟨rest, hfr⟩ := frame_head df
      rw [h1] at hfr
      rw [hfr]
      unfold meltFrame
      rw [List.find?_cons_of_pos _ (by rfl)]
      exact ⟨_, rfl⟩
    obtain ⟨m, hm⟩ := hmelt
    unfold cleaning_dataframe at hcontra
    rw [if_neg hn, hm] at hcontra
    have hcontra' : (match enforceTypes m with
        | Except.error e => Except.error e
        | Except.ok typed => Except.ok (dropna typed)) =
        Except.error CleanErr.noCountryColumn := hcontra
    cases henf : enforceTypes m with
    | error e =>
      rw [henf] at hcontra'
      injection hcontra' with he
      exact enforceTypes_ne_ncc m (by rw [henf, he])
    | ok typed =>
      rw [henf] at hcontra'
      exact Except.noConfusion hcontra'
  · intro hn hall
    have hnone : (renameFrame (replaceFrame (selectCols df))).find?
        (fun col => col.1 == "Country") = none := by
      refine List.find?_eq_none.mpr ?_
      intro col hcol
      unfold renameFrame replaceFrame selectCols keepIndices at hcol
      rw [List.map_map, List.map_map] at hcol
      obtain ⟨i, hi, rfl⟩ := List.mem_map.mp hcol
      have hilt : i < df.headers.length := by
        rcases List.mem_cons.mp hi with rfl | hodd
        · exact hn
        · exact (mem_oddIndices.mp hodd).1
      have hi2 := hall i hilt
      show ¬ ((renameTime (df.headers.getD i ""),
        (df.rows.map (fun r => r.getD i Cell.na)).map replaceSentinel).1 == "Country") = true
      unfold renameTime
      rw [if_neg hi2.1]
      simpa using hi2.2
    unfold cleaning_dataframe
    rw [if_neg (Nat.pos_iff_ne_zero.mp hn)]
    unfold meltFrame
    rw [hnone]

/-- Witness for C3 at the `tinySheet` and `geoSheet2` fixtures. -/
theorem c3_witness :
    cleaning_dataframe tinySheet ≠ Except.error CleanErr.noCountryColumn ∧
    cleaning_dataframe geoSheet2 = Except.error CleanErr.noCountryColumn :=
  ⟨(c3_rename_only_TIME tinySheet).1 (by decide),
   (c3_rename_only_TIME geoSheet2).2 (by decide) (by decide)⟩

/-- C9: the error behavior of type enforcement is asymmetric.  First
conjunct: on a well-formed wide sheet with at least one data row, an
unparseable period label makes the whole cleaning fail with a date-parse
error (the failure surfaces).  Second conjunct: when every period label
parses, cleaning always succeeds — whatever the cells hold, so a
non-numeric HICP value never raises; by C1 such rows are dropped
locally. -/
theorem c9_error_asymmetry :
    ∀ df : RawSheet,
      (df.headers.getD 0 "" = "TIME" →
        (∀ j ∈ oddIndices df.headers.length,
          df.headers.getD j "" ≠ "TIME" ∧ df.headers.getD j "" ≠ "Country") →
        df.rows ≠ [] →
        (∃ j ∈ oddIndices df.headers.length, parseDate (df.headers.getD j "") = none) →
        ∃ s, parseDate s = none ∧
          cleaning_dataframe df = Except.error (CleanErr.dateParse s)) ∧
      (df.headers.getD 0 "" = "TIME" →
        (∀ j ∈ oddIndices df.headers.length, (parseDate (df.headers.getD j "")).isSome) →
        ∃ out, cleaning_dataframe df = Except.ok out) := by
  intro df
  constructor
  · intro h1 hp hrows hbad
    have hn : ¬ df.headers.length = 0 := fun h0 => by
      rw [List.length_eq_zero.mp h0] at h1
      exact absurd h1 (by decide)
    obtain ⟨j, hj, hjn⟩ := hbad
    have hmem : ∃ t ∈ meltedSpec df, parseDate t.2.1 = none := by
      obtain ⟨r, rest, hre⟩ : ∃ r rest, df.rows = r :: rest := by
        cases hr : df.rows with
        | nil => exact absurd hr hrows
        | cons r rest => exact ⟨r, rest, rfl⟩
      refine ⟨(replaceSentinel (r.getD 0 Cell.na), df.headers.getD j "",
        replaceSentinel (r.getD j Cell.na)), ?_, hjn⟩
      unfold meltedSpec
      refine List.mem_flatMap.mpr ⟨j, hj, ?_⟩
      rw [hre]
      exact List.mem_map_of_mem _ (List.mem_cons_self r rest)
    obtain ⟨s, hs, he⟩ := enforceTypes_err _ hmem
    refine ⟨s, hs, ?_⟩
    unfold cleaning_dataframe
    rw [if_neg hn, melt_eq df h1 hp]
    show (match enforceTypes (meltedSpec df) with
      | Except.error e => Except.error e
      | Except.ok typed => Except.ok (dropna typed)) = _
    rw [he]
  · intro h1 hparse
    exact ⟨_, cleaning_ok df h1 hparse⟩

/-- Witness for C9 at the `badDateSheet` and `tinySheet` fixtures. -/
theorem c9_witness :
    (∃ s, parseDate s = none ∧
      cleaning_dataframe badDateSheet = Except.error (CleanErr.dateParse s)) ∧
    (∃ out, cleaning_dataframe tinySheet = Except.ok out) :=
  ⟨(c9_error_asymmetry badDateSheet).1 (by decide) (by decide) (by decide)
      ⟨1, by decide, by decide⟩,
   (c9_error_asymmetry tinySheet).2 (by decide) (by decide)⟩

/-- C10: on a well-formed sheet the typed table before the drop is ordered
column-major — for each retained period column in left-to-right order,
one observation per input row in top-to-bottom order — and the final
dropna only filters that sequence, without reordering the survivors. -/
theorem c10_column_major :
    ∀ df : RawSheet,
      df.headers.getD 0 "" = "TIME" →
      (∀ j ∈ oddIndices df.headers.length, (parseDate (df.headers.getD j "")).isSome) →
      ∃ pre : List Obs,
        enforceTypes (meltedSpec df) = Except.ok pre ∧
        pre = (oddIndices df.headers.length).flatMap (fun j =>
          df.rows.map (fun r =>
            { country := cellStr (replaceSentinel (r.getD 0 Cell.na)),
              date := (parseDate (df.headers.getD j "")).getD { year := 0, month := 0, day := 0 },
              hicp := cellToNum (replaceSentinel (r.getD j Cell.na)) })) ∧
        cleaning_dataframe df = Except.ok (pre.filter (fun o => o.hicp.isSome)) := by
  intro df h1 hparse
  exact ⟨preDropSpec df, enforce_meltedSpec df hparse, rfl, cleaning_ok df h1 hparse⟩

/-- Witness for C10 at the worked scenario sheet. -/
theorem c10_witness :
    ∃ pre : List Obs,
      enforceTypes (meltedSpec scenarioSheet) = Except.ok pre ∧
      pre = (oddIndices scenarioSheet.headers.length).flatMap (fun j =>
        scenarioSheet.rows.map (fun r =>
          { country := cellStr (replaceSentinel (r.getD 0 Cell.na)),
            date := (parseDate (scenarioSheet.headers.getD j "")).getD
              { year := 0, month := 0, day := 0 },
            hicp := cellToNum (replaceSentinel (r.getD j Cell.na)) })) ∧
      cleaning_dataframe scenarioSheet =
        Except.ok (pre.filter (fun o => o.hicp.isSome)) :=
  c10_column_major scenarioSheet (by decide) (by decide)

/-- Evaluation of the classifier once the trailing token parses. -/
theorem classify_some (s : String) (idx : Int)
    (h : (trailingToken s).bind pyInt = some idx) :
    map_sheet_to_category s =
      if SHEETS_INDEX_FOOD idx then "Food"
      else if SHEETS_INDEX_HOUSING_ENERGY idx then "Housing & Energy"
      else if SHEETS_INDEX_TRANSPORT idx then "Transport"
      else "Other" := by
  unfold map_sheet_to_category
  rw [h]

/-- Evaluation of the classifier when trailing-token parsing fails. -/
theorem classify_none (s : String)
    (h : (trailingToken s).bind pyInt = none) :
    map_sheet_to_category s = "Other" := by
  unfold map_sheet_to_category
  rw [h]

/-- C6: the classifier parses the trailing whitespace-delimited token of
the sheet name as an integer and classifies by range — Food on [1, 76),
Housing & Energy on [76, 109), Transport on [109, 151), Other otherwise
or on parse failure — with the four scenario values of the spec. -/
theorem c6_classifier_ranges :
    map_sheet_to_category "Sheet 1" = "Food" ∧
    map_sheet_to_category "Sheet 76" = "Housing & Energy" ∧
    map_sheet_to_category "Sheet 200" = "Other" ∧
    map_sheet_to_category "NoNumber" = "Other" ∧
    (∀ (s : String) (idx : Int), (trailingToken s).bind pyInt = some idx →
      map_sheet_to_category s =
        if 1 ≤ idx ∧ idx < 76 then "Food"
        else if 76 ≤ idx ∧ idx < 109 then "Housing & Energy"
        else if 109 ≤ idx ∧ idx < 151 then "Transport"
        else "Other") ∧
    (∀ s : String, (trailingToken s).bind pyInt = none →
      map_sheet_to_category s = "Other") := by
  refine ⟨rfl, rfl, rfl, rfl, ?_, ?_⟩
  · intro s idx h
    rw [classify_some s idx h]
    simp only [SHEETS_INDEX_FOOD, SHEETS_INDEX_HOUSING_ENERGY, SHEETS_INDEX_TRANSPORT,
      Bool.and_eq_true, decide_eq_true_eq]
  · intro s h
    exact classify_none s h

/-- Witness for C6 at the token "Sheet 42". -/
theorem c6_witness : map_sheet_to_category "Sheet 42" = "Food" := by
  have h := (c6_classifier_ranges.2.2.2.2.1) "Sheet 42" 42 (by decide)
  rw [h]
  decide

/-- C7: the classifier is total — every string, the empty string and
non-numeric trailing tokens included, is assigned exactly one of the
four category labels — and the three numeric ranges are pairwise
disjoint. -/
theorem c7_total_disjoint :
    (∀ s : String,
      map_sheet_to_category s = "Food" ∨
      map_sheet_to_category s = "Housing & Energy" ∨
      map_sheet_to_category s = "Transport" ∨
      map_sheet_to_category s = "Other") ∧
    (∀ idx : Int,
      (SHEETS_INDEX_FOOD idx = true →
        SHEETS_INDEX_HOUSING_ENERGY idx = false ∧ SHEETS_INDEX_TRANSPORT idx = false) ∧
      (SHEETS_INDEX_HOUSING_ENERGY idx = true →
        SHEETS_INDEX_TRANSPORT idx = false)) := by
  constructor
  · intro s
    cases hcase : (trailingToken s).bind pyInt with
    | none => exact Or.inr (Or.inr (Or.inr (classify_none s hcase)))
    | some idx =>
      rw [classify_some s idx hcase]
      by_cases h1 : SHEETS_INDEX_FOOD idx = true
      · rw [if_pos h1]; exact Or.inl rfl
      rw [if_neg h1]
      by_cases h2 : SHEETS_INDEX_HOUSING_ENERGY idx = true
      · rw [if_pos h2]; exact Or.inr (Or.inl rfl)
      rw [if_neg h2]
      by_cases h3 : SHEETS_INDEX_TRANSPORT idx = true
      · rw [if_pos h3]; exact Or.inr (Or.inr (Or.inl rfl))
      rw [if_neg h3]
      exact Or.inr (Or.inr (Or.inr rfl))
  · intro idx
    constructor
    · intro h
      simp only [SHEETS_INDEX_FOOD, Bool.and_eq_true, decide_eq_true_eq] at h
      constructor
      · cases hH : SHEETS_INDEX_HOUSING_ENERGY idx with
        | false => rfl
        | true =>
          exfalso
          simp only [SHEETS_INDEX_HOUSING_ENERGY, Bool.and_eq_true, decide_eq_true_eq] at hH
          omega
      · cases hT : SHEETS_INDEX_TRANSPORT idx with
        | false => rfl
        | true =>
          exfalso
          simp only [SHEETS_INDEX_TRANSPORT, Bool.and_eq_true, decide_eq_true_eq] at hT
          omega
    · intro h
      simp only [SHEETS_INDEX_HOUSING_ENERGY, Bool.and_eq_true, decide_eq_true_eq] at h
      cases hT : SHEETS_INDEX_TRANSPORT idx with
      | false => rfl
      | true =>
        exfalso
        simp only [SHEETS_INDEX_TRANSPORT, Bool.and_eq_true, decide_eq_true_eq] at hT
        omega

/-- Witness for C7 at the indices 5 and 80. -/
theorem c7_witness :
    (SHEETS_INDEX_HOUSING_ENERGY 5 = false ∧ SHEETS_INDEX_TRANSPORT 5 = false) ∧
    SHEETS_INDEX_TRANSPORT 80 = false :=
  ⟨(c7_total_disjoint.2 5).1 (by decide), (c7_total_disjoint.2 80).2 (by decide)⟩

/-- C8: when every key of the ordered columns map names a column of the
summary sheet, the summary loader keeps exactly those columns (in key
order), drops precisely the rows whose first selected value is the
literal "Contents" and the rows with a missing value in a selected
column, renames the headers per the map, and the surviving rows appear
in their original relative order (the output is one order-preserving
filter of the column-restricted rows). -/
theorem c8_summary_loader :
    ∀ (headers : List String) (rows : List (List Cell))
      (cmap : List (String × String)) (i0 : Nat) (idxs : List Nat),
      findCols headers (cmap.map Prod.fst) = some (i0 :: idxs) →
      load_summary_core headers rows cmap =
        some (cmap.map Prod.snd,
          (rows.map (fun r => (i0 :: idxs).map (fun i => r.getD i Cell.na))).filter
            (fun sel => (sel.getD 0 Cell.na != Cell.str "Contents") &&
              !(sel.any (fun c => c == Cell.na)))) := by
  intro headers rows cmap i0 idxs h
  unfold load_summary_core
  rw [h]
  show some (cmap.map Prod.snd,
    ((rows.filter (fun r => r.getD i0 Cell.na != Cell.str "Contents")).map
      (fun r => (i0 :: idxs).map (fun i => r.getD i Cell.na))).filter
      (fun sel => !(sel.any (fun c => c == Cell.na)))) = _
  refine congrArg some (congrArg (Prod.mk (cmap.map Prod.snd)) ?_)
  rw [List.filter_map, List.filter_map, List.filter_filter]
  refine congrArg (List.map _) (List.filter_congr ?_)
  intro r _
  exact Bool.and_comm _ _

/-- Witness for C8 at the summary fixture. -/
theorem c8_witness :
    load_summary_core summaryHeaders summaryRows summaryMap =
      some (["sheet_name", "description"],
        [[Cell.str "Sheet 1", Cell.str "Bread"]]) :=
  c8_summary_loader summaryHeaders summaryRows summaryMap 1 [2] rfl

end Hicp
